import Mathlib

/-!
Verification development for the PokeAPI MCP server (`server.py`).

The Python source is shallowly embedded as follows:

* JSON values (the payloads produced by `response.json()` and the Python
  dictionaries the handlers build) are the inductive type `Json`.  Object
  fields are an ordered association list with string keys; the handlers in
  the source only ever build and look up string keys.  Python `None` is
  identified with JSON `null`.  Numbers are modelled as integers (every
  numeric field the handlers touch is an integer in the upstream API).
* Python expressions that may raise (`d.get(k)` on a non-dict,
  subscripting, iteration) are modelled in `Except String`; the error
  string stands for Python's `str(e)` of the raised exception, whose exact
  text the model does not reproduce.
* Each `async def` handler is a function from an upstream behaviour
  (`Upstream`, mapping full request URLs to outcomes) and its arguments to
  `Option Json`: `some r` is the dictionary the handler returns, `none`
  means an exception escaped the handler (which in the source only happens
  outside the `try` blocks, e.g. when a 2xx upstream body is not a JSON
  object so that `data.get("error")` raises `AttributeError`).
* `str.lower` is modelled by ASCII case folding (`pyLower`); the inputs in
  all claims are ASCII.  `str.replace` is modelled by `pyReplaceAll`,
  which replaces every occurrence left-to-right like Python does (for a
  non-empty pattern; the source only replaces the non-empty patterns
  `" "` and the base URL).
-/

set_option maxRecDepth 10000

/-- JSON values / Python dictionaries, as produced by `response.json()` and
built by the handlers.  Objects are ordered association lists with string
keys. -/
inductive Json where
  | null
  | bool (b : Bool)
  | num (n : Int)
  | str (s : String)
  | arr (elems : List Json)
  | obj (fields : List (String × Json))

/-- First-match lookup in an object's field list (Python dict lookup; the
dicts built by this program have unique keys, and for duplicate keys
first-match agrees with the overwriting insertion `insertPair` below). -/
def lookupJ : List (String × Json) → String → Option Json
  | [], _ => none
  | (k', v) :: rest, k => if k' = k then some v else lookupJ rest k

/-- Total `d.get(k, default)`: field value if present, `d` otherwise; on a
non-object it just returns the default (the partial, exception-raising
variant is `pyGetD`). -/
def jGetD (j : Json) (k : String) (d : Json) : Json :=
  match j with
  | .obj fs => (lookupJ fs k).getD d
  | _ => d

/-- Whether an object value has field `k` (false on non-objects). -/
def jHasKey (j : Json) (k : String) : Bool :=
  match j with
  | .obj fs => (lookupJ fs k).isSome
  | _ => false

/-- Whether a JSON value is a string. -/
def jIsStr : Json → Bool
  | .str _ => true
  | _ => false

/-- Python truthiness of a JSON value: `None`, `False`, `0`, `""`, `[]` and
`{}` are falsy, everything else is truthy. -/
def truthy : Json → Bool
  | .null => false
  | .bool b => b
  | .num n => n != 0
  | .str s => s ≠ ""
  | .arr es => !es.isEmpty
  | .obj fs => !fs.isEmpty

/-- Python `d.get(k, default)`: raises (`AttributeError`) unless `d` is a
dict. -/
def pyGetD (j : Json) (k : String) (d : Json) : Except String Json :=
  match j with
  | .obj fs => .ok ((lookupJ fs k).getD d)
  | _ => .error "AttributeError: object has no attribute get"

/-- Python `d.get(k)` (default `None`). -/
def pyGet (j : Json) (k : String) : Except String Json :=
  pyGetD j k .null

/-- Python subscript `d[k]` with a string key: `KeyError` on a dict without
the key, `TypeError` on anything that is not a dict. -/
def pySub (j : Json) (k : String) : Except String Json :=
  match j with
  | .obj fs =>
    match lookupJ fs k with
    | some v => .ok v
    | none => .error ("KeyError: " ++ k)
  | .str _ => .error "TypeError: string indices must be integers"
  | .arr _ => .error "TypeError: list indices must be integers"
  | _ => .error "TypeError: object is not subscriptable"

/-- Python `for x in j`: lists yield their elements, dicts their keys,
strings their characters (as one-character strings); other values raise
`TypeError`. -/
def pyIter (j : Json) : Except String (List Json) :=
  match j with
  | .arr es => .ok es
  | .obj fs => .ok (fs.map fun p => Json.str p.1)
  | .str s => .ok (s.data.map fun c => Json.str (String.singleton c))
  | _ => .error "TypeError: object is not iterable"

/-- Insertion into a Python dict under construction: overwrite in place if
the key exists, append otherwise. -/
def insertPair : List (String × Json) → String → Json → List (String × Json)
  | [], k, v => [(k, v)]
  | (k', v') :: rest, k, v =>
    if k' = k then (k', v) :: rest else (k', v') :: insertPair rest k v

/-- The uniform error dictionary `{"error": m, "details": d}` built by the
fetch helper and the handlers' `except` blocks. -/
def mkErr (m d : String) : Json :=
  Json.obj [("error", .str m), ("details", .str d)]

/-- Python `v == "en"`-style comparison of a JSON value with a string
literal: true exactly for the equal string. -/
def isStrEq (v : Json) (s : String) : Bool :=
  match v with
  | .str t => t = s
  | _ => false

/-! ### String helpers: `str.lower` and `str.replace` -/

/-- ASCII case folding of one character (model of `str.lower` on the ASCII
inputs this program receives): code points 65–90 are shifted to 97–122. -/
def pyLowerChar (c : Char) : Char :=
  if 65 ≤ c.toNat ∧ c.toNat ≤ 90 then Char.ofNat (c.toNat + 32) else c

/-- Model of Python `str.lower()` (ASCII case folding). -/
def pyLower (s : String) : String :=
  ⟨s.data.map pyLowerChar⟩

/-- Whether `pat` occurs as a contiguous sublist of `l` (true for the empty
pattern). -/
def listContainsSub : List Char → List Char → Bool
  | _, [] => true
  | [], _ :: _ => false
  | c :: rest, p :: pt =>
    (p :: pt).isPrefixOf (c :: rest) || listContainsSub rest (p :: pt)

/-- Whether `sub` occurs in `s`. -/
def strContains (s sub : String) : Bool :=
  listContainsSub s.data sub.data

/-- Fuelled left-to-right replace-all on character lists.  With fuel at
least the length of the subject and a non-empty pattern it performs exactly
Python's `str.replace`: at each position, if the pattern matches, emit the
replacement and skip past the match, else keep one character. -/
def replaceAux : Nat → List Char → List Char → List Char → List Char
  | _, [], _, _ => []
  | 0, s, _, _ => s
  | fuel + 1, c :: rest, pat, rep =>
    if pat.isPrefixOf (c :: rest) then
      rep ++ replaceAux fuel ((c :: rest).drop pat.length) pat rep
    else
      c :: replaceAux fuel rest pat rep

/-- Model of Python `s.replace(pat, rep)` for a non-empty pattern (every
call site in the source uses a non-empty pattern). -/
def pyReplaceAll (s pat rep : String) : String :=
  ⟨replaceAux s.data.length s.data pat.data rep.data⟩

/-! ### The upstream HTTP world and the fetch helper -/

/-- Outcome of one GET of a full URL, as seen by `fetch_from_pokeapi`:
an HTTP response (status, body text, parsed JSON body), an
`httpx.RequestError` (transport failure), or any other exception raised
during the call (e.g. a JSON decoding failure), with its `str(e)`. -/
inductive UpstreamResult where
  | response (status : Nat) (body : String) (json : Json)
  | transportError (cause : String)
  | otherFailure (cause : String)

/-- Upstream behaviour: what one GET of each full URL does. -/
def Upstream : Type := String → UpstreamResult

/-- `POKEAPI_BASE_URL` from the source. -/
def POKEAPI_BASE_URL : String := "https://pokeapi.co/api/v2"

/-- `fetch_from_pokeapi(endpoint)`: GET `base_url + endpoint`;
`raise_for_status` turns a 4xx/5xx response into
`{"error": "API request failed with status <code>", "details": <body>}`,
a transport failure into `{"error": "API request error", ...}`, any other
failure into `{"error": "An unexpected error occurred", ...}`; otherwise
the parsed JSON body is returned. -/
def fetch_from_pokeapi (up : Upstream) (endpoint : String) : Json :=
  match up (POKEAPI_BASE_URL ++ endpoint) with
  | .response status body json =>
    if 400 ≤ status ∧ status < 600 then
      mkErr ("API request failed with status " ++ toString status) body
    else
      json
  | .transportError cause => mkErr "API request error" cause
  | .otherFailure cause => mkErr "An unexpected error occurred" cause

example : fetch_from_pokeapi (fun _ => .response 404 "nf" .null) "/x" =
    mkErr "API request failed with status 404" "nf" := rfl
example : pyLower "Pikachu" = "pikachu" := rfl
example : pyReplaceAll "poke ball x" " " "-" = "poke-ball-x" := rfl
example :
    pyReplaceAll "https://pokeapi.co/api/v2/pokemon-species/25/"
      POKEAPI_BASE_URL "" = "/pokemon-species/25/" := rfl

/-! ### The handlers

Every `@mcp.tool` handler in the source has the same skeleton around its
`try` block: look up `data.get("error")` (raising if the fetched value is
not a dict), return `data` verbatim when that field is truthy, otherwise
run the body and turn a raised exception into
`{"error": "Failed to process ...", "details": str(e)}`.  `runHandler`
is that shared skeleton, applied per handler to its own message and body. -/

/-- Shared handler skeleton: the `if data.get("error"): return data` guard
followed by the `try`/`except` around `body`. -/
def runHandler (procMsg : String) (body : Json → Except String Json)
    (data : Json) : Option Json :=
  match pyGet data "error" with
  | .error _ => none
  | .ok e =>
    if truthy e then
      some data
    else
      some (match body data with
            | .ok r => r
            | .error c => mkErr procMsg c)

/-- The `types` list comprehension
`[t['type']['name'] for t in data.get('types', [])]`. -/
def detailsTypes (data : Json) : Except String (List Json) := do
  let raw ← pyGetD data "types" (.arr [])
  let items ← pyIter raw
  items.mapM fun t => do
    let ty ← pySub t "type"
    pySub ty "name"

/-- The `stats` dict comprehension
`{s['stat']['name']: s['base_stat'] for s in data.get('stats', [])}`.
Keys are evaluated before values; the model only accepts string keys
(PokeAPI stat names are strings; a non-string key is reported as a raised
exception, abstracting Python's behaviour on exotic keys). -/
def detailsStats (data : Json) : Except String (List (String × Json)) := do
  let raw ← pyGetD data "stats" (.arr [])
  let items ← pyIter raw
  items.foldlM (fun acc s => do
    let st ← pySub s "stat"
    let nm ← pySub st "name"
    let bs ← pySub s "base_stat"
    match nm with
    | .str nms => pure (insertPair acc nms bs)
    | _ => Except.error "TypeError: non-string stat name key") []

/-- The sprite computation of `get_pokemon_details`: prefer
`sprites.other.official-artwork.front_default`; if that is falsy, re-read
`sprites` and fall back to its `front_default`. -/
def detailsSprite (data : Json) : Except String Json := do
  let sprites ← pyGetD data "sprites" (.obj [])
  let other ← pyGetD sprites "other" (.obj [])
  let oaObj ← pyGetD other "official-artwork" (.obj [])
  let oa ← pyGet oaObj "front_default"
  if truthy oa then
    pure oa
  else do
    let sprites2 ← pyGetD data "sprites" (.obj [])
    pyGet sprites2 "front_default"

/-- The `try` block of `get_pokemon_details`: the three computations above
followed by the result dictionary display, whose `data.get(...)` calls are
evaluated left to right. -/
def detailsBody (data : Json) : Except String Json := do
  let tys ← detailsTypes data
  let sts ← detailsStats data
  let sp ← detailsSprite data
  let idv ← pyGet data "id"
  let nm ← pyGet data "name"
  let ht ← pyGet data "height"
  let wt ← pyGet data "weight"
  pure (Json.obj [("id", idv), ("name", nm), ("height", ht), ("weight", wt),
                  ("types", .arr tys), ("stats", .obj sts),
                  ("sprite_url", sp)])

/-- `get_pokemon_details(pokemon_name_or_id)`. -/
def get_pokemon_details (up : Upstream) (pokemon_name_or_id : String) :
    Option Json :=
  runHandler "Failed to process Pokémon data" detailsBody
    (fetch_from_pokeapi up ("/pokemon/" ++ pyLower pokemon_name_or_id ++ "/"))

/-- The `try` block of `get_pokemon_types`. -/
def typesBody (data : Json) : Except String Json := do
  let tys ← detailsTypes data
  let nm ← pyGet data "name"
  let idv ← pyGet data "id"
  pure (Json.obj [("name", nm), ("id", idv), ("types", .arr tys)])

/-- `get_pokemon_types(pokemon_name_or_id)`. -/
def get_pokemon_types (up : Upstream) (pokemon_name_or_id : String) :
    Option Json :=
  runHandler "Failed to process Pokémon types" typesBody
    (fetch_from_pokeapi up ("/pokemon/" ++ pyLower pokemon_name_or_id ++ "/"))

/-- `get_species_data(pokemon_name_or_id)`: fetch the creature, propagate a
truthy `error` verbatim, read `species.url` (outside any `try`: a raised
exception escapes), return the `"Species URL not found"` record when that
URL is falsy, otherwise strip the base URL with `str.replace` (which needs
a string: `.replace` on a non-string raises) and fetch the resulting
endpoint, returning the second fetch's value unchanged. -/
def get_species_data (up : Upstream) (pokemon_name_or_id : String) :
    Option Json :=
  let pokemon_data :=
    fetch_from_pokeapi up ("/pokemon/" ++ pyLower pokemon_name_or_id ++ "/")
  match pyGet pokemon_data "error" with
  | .error _ => none
  | .ok e =>
    if truthy e then
      some pokemon_data
    else
      match (do
        let sp ← pyGetD pokemon_data "species" (.obj [])
        pyGet sp "url") with
      | .error _ => none
      | .ok species_url =>
        if ¬ truthy species_url then
          some (Json.obj [("error", .str "Species URL not found"),
                          ("name", jGetD pokemon_data "name" .null)])
        else
          match species_url with
          | .str surl =>
            some (fetch_from_pokeapi up
              (pyReplaceAll surl POKEAPI_BASE_URL ""))
          | _ => none

/-- The `try` block of `get_pokemon_color`; the success dictionary's
`data.get("name", str(pokemon_name_or_id))` falls back to the raw (not
lowercased) handler input. -/
def colorBody (pokemon_name_or_id : String) (data : Json) :
    Except String Json := do
  let c ← pyGetD data "color" (.obj [])
  let cn ← pyGet c "name"
  if ¬ truthy cn then do
    let nmE ← pyGet data "name"
    pure (Json.obj [("error", .str "Color not found in species data"),
                    ("name", nmE)])
  else do
    let nm ← pyGetD data "name" (.str pokemon_name_or_id)
    let idv ← pyGet data "id"
    pure (Json.obj [("name", nm), ("id", idv), ("color", cn)])

/-- `get_pokemon_color(pokemon_name_or_id)`. -/
def get_pokemon_color (up : Upstream) (pokemon_name_or_id : String) :
    Option Json :=
  match get_species_data up pokemon_name_or_id with
  | none => none
  | some data =>
    runHandler "Failed to process Pokémon color"
      (colorBody pokemon_name_or_id) data

/-- The `try` block of `get_pokemon_shape`, symmetric to `colorBody`. -/
def shapeBody (pokemon_name_or_id : String) (data : Json) :
    Except String Json := do
  let s ← pyGetD data "shape" (.obj [])
  let sn ← pyGet s "name"
  if ¬ truthy sn then do
    let nmE ← pyGet data "name"
    pure (Json.obj [("error", .str "Shape not found in species data"),
                    ("name", nmE)])
  else do
    let nm ← pyGetD data "name" (.str pokemon_name_or_id)
    let idv ← pyGet data "id"
    pure (Json.obj [("name", nm), ("id", idv), ("shape", sn)])

/-- `get_pokemon_shape(pokemon_name_or_id)`. -/
def get_pokemon_shape (up : Upstream) (pokemon_name_or_id : String) :
    Option Json :=
  match get_species_data up pokemon_name_or_id with
  | none => none
  | some data =>
    runHandler "Failed to process Pokémon shape"
      (shapeBody pokemon_name_or_id) data

/-- The `try` block shared by the two listing handlers: the `name`
comprehension over `data.get('results', [])` and the result dictionary,
parameterised by the name of the output list field. -/
def listBody (field : String) (data : Json) : Except String Json := do
  let raw ← pyGetD data "results" (.arr [])
  let items ← pyIter raw
  let names ← items.mapM fun p => pySub p "name"
  let cnt ← pyGet data "count"
  pure (Json.obj [("count", cnt), (field, .arr names)])

/-- `list_all_pokemon_names(limit=2000, offset=0)`. -/
def list_all_pokemon_names (up : Upstream) (limit : Int := 2000)
    (offset : Int := 0) : Option Json :=
  runHandler "Failed to process Pokémon list" (listBody "pokemon_names")
    (fetch_from_pokeapi up
      ("/pokemon?limit=" ++ toString limit ++ "&offset=" ++ toString offset))

/-- The `short_effect` loop of `get_item_details`: scan `effect_entries`
for the first entry whose `language.name` equals `"en"` and take its
`short_effect` (default `"N/A"`); `"N/A"` when no entry matches. -/
def findShortEffect : List Json → Except String Json
  | [] => .ok (.str "N/A")
  | e :: rest => do
    let lang ← pyGetD e "language" (.obj [])
    let nm ← pyGet lang "name"
    if isStrEq nm "en" then
      pyGetD e "short_effect" (.str "N/A")
    else
      findShortEffect rest

/-- The `try` block of `get_item_details`: the short-effect loop, the
sprite lookup, then the result dictionary display evaluated left to
right. -/
def itemBody (data : Json) : Except String Json := do
  let entriesRaw ← pyGetD data "effect_entries" (.arr [])
  let entries ← pyIter entriesRaw
  let se ← findShortEffect entries
  let spr ← pyGetD data "sprites" (.obj [])
  let sprite ← pyGet spr "default"
  let idv ← pyGet data "id"
  let nm ← pyGet data "name"
  let cost ← pyGetD data "cost" (.num 0)
  let cat ← pyGetD data "category" (.obj [])
  let catName ← pyGet cat "name"
  pure (Json.obj [("id", idv), ("name", nm), ("cost", cost),
                  ("category", catName), ("short_effect", se),
                  ("sprite_url", sprite)])

/-- Item identifier normalization: lowercase, then replace spaces with
hyphens. -/
def normalizeItem (s : String) : String :=
  pyReplaceAll (pyLower s) " " "-"

/-- `get_item_details(item_name_or_id)`. -/
def get_item_details (up : Upstream) (item_name_or_id : String) :
    Option Json :=
  runHandler "Failed to process item data" itemBody
    (fetch_from_pokeapi up ("/item/" ++ normalizeItem item_name_or_id ++ "/"))

/-- `list_all_items(limit=100, offset=0)`. -/
def list_all_items (up : Upstream) (limit : Int := 100)
    (offset : Int := 0) : Option Json :=
  runHandler "Failed to process item list" (listBody "item_names")
    (fetch_from_pokeapi up
      ("/item?limit=" ++ toString limit ++ "&offset=" ++ toString offset))

/-! ### Result-shape predicates -/

/-- The output has a truthy `error` field (the error side of the spec's
result/error dichotomy). -/
def truthyErr (r : Json) : Prop :=
  truthy (jGetD r "error" Json.null) = true

/-- The fully-populated success record of `get_pokemon_details`. -/
def isDetailsRecord (r : Json) : Prop :=
  ∃ i n ht wt ts ss sp,
    r = Json.obj [("id", i), ("name", n), ("height", ht), ("weight", wt),
                  ("types", Json.arr ts), ("stats", Json.obj ss),
                  ("sprite_url", sp)]

/-- The fully-populated success record of `get_pokemon_types`. -/
def isTypesRecord (r : Json) : Prop :=
  ∃ n i ts, r = Json.obj [("name", n), ("id", i), ("types", Json.arr ts)]

/-- The fully-populated success record of `get_pokemon_color`. -/
def isColorRecord (r : Json) : Prop :=
  ∃ n i c, r = Json.obj [("name", n), ("id", i), ("color", c)]

/-- The fully-populated success record of `get_pokemon_shape`. -/
def isShapeRecord (r : Json) : Prop :=
  ∃ n i s, r = Json.obj [("name", n), ("id", i), ("shape", s)]

/-- The fully-populated success record of a listing handler with the given
names field. -/
def isListRecord (field : String) (r : Json) : Prop :=
  ∃ c ns, r = Json.obj [("count", c), (field, Json.arr ns)]

/-- The fully-populated success record of `get_item_details`. -/
def isItemRecord (r : Json) : Prop :=
  ∃ i n c cat se sp,
    r = Json.obj [("id", i), ("name", n), ("cost", c), ("category", cat),
                  ("short_effect", se), ("sprite_url", sp)]

/-- An error record of the uniform `{error: message, details: string}`
shape with a non-empty message. -/
def isMsgDetailsErr (r : Json) : Prop :=
  ∃ m d, r = mkErr m d ∧ m ≠ ""

/-- An error record of the `{error: message, name: best-effort}` shape
(the species/color/shape not-found variants) with a non-empty message. -/
def isMsgNameErr (r : Json) : Prop :=
  ∃ m n, r = Json.obj [("error", .str m), ("name", n)] ∧ m ≠ ""

/-- The value is a JSON body that some URL's GET answered with a
non-4xx/5xx status (a body the fetch helper returned verbatim). -/
def isUpstreamBody (up : Upstream) (r : Json) : Prop :=
  ∃ u s b, up u = .response s b r ∧ ¬(400 ≤ s ∧ s < 600)

/-! ### Inversion and computation lemmas -/

theorem ebind_ok {α β : Type} {e : Except String α} {f : α → Except String β}
    {b : β} (h : e >>= f = Except.ok b) :
    ∃ a, e = Except.ok a ∧ f a = Except.ok b := by
  cases e with
  | ok a => exact ⟨a, rfl, h⟩
  | error c =>
    simp only [show (Except.error c >>= f : Except String β) =
      Except.error c from rfl] at h
    exact Except.noConfusion h

theorem epure_ok {β : Type} {a b : β}
    (h : (pure a : Except String β) = Except.ok b) : a = b :=
  Except.ok.inj h

@[simp] theorem ok_bind {α β : Type} (a : α) (f : α → Except String β) :
    (Except.ok a >>= f : Except String β) = f a := rfl

@[simp] theorem pyGetD_obj (fs : List (String × Json)) (k : String)
    (d : Json) :
    pyGetD (Json.obj fs) k d = Except.ok (jGetD (Json.obj fs) k d) := rfl

@[simp] theorem pyGet_obj (fs : List (String × Json)) (k : String) :
    pyGet (Json.obj fs) k = Except.ok (jGetD (Json.obj fs) k Json.null) := rfl

theorem pyGet_ok {j : Json} {k : String} {v : Json}
    (h : pyGet j k = Except.ok v) :
    (∃ fs, j = Json.obj fs) ∧ v = jGetD j k Json.null := by
  cases j with
  | obj fs => exact ⟨⟨fs, rfl⟩, (Except.ok.inj h).symm⟩
  | null => exact absurd h (by simp [pyGet, pyGetD])
  | bool b => exact absurd h (by simp [pyGet, pyGetD])
  | num n => exact absurd h (by simp [pyGet, pyGetD])
  | str s => exact absurd h (by simp [pyGet, pyGetD])
  | arr es => exact absurd h (by simp [pyGet, pyGetD])

/-- Case analysis for the shared handler skeleton: a returned value is the
fetched value propagated verbatim (then a dict with a truthy `error`), a
processing-failure record, or a value the `try` body returned. -/
theorem runHandler_cases {msg : String} {body : Json → Except String Json}
    {data r : Json} (h : runHandler msg body data = some r) :
    (r = data ∧ truthyErr data ∧ ∃ fs, data = Json.obj fs) ∨
    (∃ c, body data = Except.error c ∧ r = mkErr msg c) ∨
    body data = Except.ok r := by
  unfold runHandler at h
  split at h
  · exact Option.noConfusion h
  · rename_i e hg
    obtain ⟨⟨fs, hfs⟩, he⟩ := pyGet_ok hg
    split at h
    · rename_i ht
      refine .inl ⟨(Option.some.inj h).symm, ?_, fs, hfs⟩
      unfold truthyErr
      rw [← he]
      exact ht
    · rename_i ht
      have h' := Option.some.inj h
      split at h'
      · rename_i rr hb
        exact .inr (.inr (by rw [hb, h']))
      · rename_i c hb
        exact .inr (.inl ⟨c, hb, h'.symm⟩)

/-- The fetch helper's value is either one of its own `{error, details}`
records (whose message is one of the three fixed prefixes, hence
non-empty) or an upstream 2xx/3xx body returned verbatim. -/
theorem fetch_cases (up : Upstream) (endpoint : String) :
    isMsgDetailsErr (fetch_from_pokeapi up endpoint) ∨
    isUpstreamBody up (fetch_from_pokeapi up endpoint) := by
  cases hu : up (POKEAPI_BASE_URL ++ endpoint) with
  | response s b j =>
    have hf : fetch_from_pokeapi up endpoint =
        (if 400 ≤ s ∧ s < 600 then
          mkErr ("API request failed with status " ++ toString s) b
        else j) := by
      unfold fetch_from_pokeapi
      rw [hu]
    by_cases hs : 400 ≤ s ∧ s < 600
    · rw [hf, if_pos hs]
      refine .inl ⟨_, b, rfl, ?_⟩
      intro hempty
      have hd : ("API request failed with status " ++ toString s).data =
          "".data := by rw [hempty]
      rw [String.data_append] at hd
      simp at hd
    · rw [hf, if_neg hs]
      exact .inr ⟨_, s, b, hu, hs⟩
  | transportError c =>
    have hf : fetch_from_pokeapi up endpoint = mkErr "API request error" c := by
      unfold fetch_from_pokeapi
      rw [hu]
    rw [hf]
    exact .inl ⟨_, c, rfl, by decide⟩
  | otherFailure c =>
    have hf : fetch_from_pokeapi up endpoint =
        mkErr "An unexpected error occurred" c := by
      unfold fetch_from_pokeapi
      rw [hu]
    rw [hf]
    exact .inl ⟨_, c, rfl, by decide⟩

theorem truthyErr_mkErr {m d : String} (hm : m ≠ "") : truthyErr (mkErr m d) := by
  unfold truthyErr mkErr jGetD lookupJ
  simp [truthy, hm]

theorem isMsgDetailsErr_truthyErr {r : Json} (h : isMsgDetailsErr r) :
    truthyErr r := by
  obtain ⟨m, d, rfl, hm⟩ := h
  exact truthyErr_mkErr hm

theorem isMsgNameErr_truthyErr {r : Json} (h : isMsgNameErr r) :
    truthyErr r := by
  obtain ⟨m, n, rfl, hm⟩ := h
  unfold truthyErr jGetD lookupJ
  simp [truthy, hm]

theorem isDetailsRecord_not_truthyErr {r : Json} (h : isDetailsRecord r) :
    ¬ truthyErr r := by
  obtain ⟨i, n, ht, wt, ts, ss, sp, rfl⟩ := h
  unfold truthyErr
  simp [jGetD, lookupJ, truthy]

theorem isTypesRecord_not_truthyErr {r : Json} (h : isTypesRecord r) :
    ¬ truthyErr r := by
  obtain ⟨n, i, ts, rfl⟩ := h
  unfold truthyErr
  simp [jGetD, lookupJ, truthy]

theorem isColorRecord_not_truthyErr {r : Json} (h : isColorRecord r) :
    ¬ truthyErr r := by
  obtain ⟨n, i, c, rfl⟩ := h
  unfold truthyErr
  simp [jGetD, lookupJ, truthy]

theorem isShapeRecord_not_truthyErr {r : Json} (h : isShapeRecord r) :
    ¬ truthyErr r := by
  obtain ⟨n, i, s, rfl⟩ := h
  unfold truthyErr
  simp [jGetD, lookupJ, truthy]

/-! ### The `try` bodies only return values of their record shapes -/

theorem detailsBody_ok {data r : Json} (h : detailsBody data = Except.ok r) :
    isDetailsRecord r := by
  unfold detailsBody at h
  obtain ⟨tys, h1, h⟩ := ebind_ok h
  obtain ⟨sts, h2, h⟩ := ebind_ok h
  obtain ⟨sp, h3, h⟩ := ebind_ok h
  obtain ⟨idv, h4, h⟩ := ebind_ok h
  obtain ⟨nm, h5, h⟩ := ebind_ok h
  obtain ⟨ht', h6, h⟩ := ebind_ok h
  obtain ⟨wt, h7, h⟩ := ebind_ok h
  exact ⟨idv, nm, ht', wt, tys, sts, sp, (epure_ok h).symm⟩

theorem typesBody_ok {data r : Json} (h : typesBody data = Except.ok r) :
    isTypesRecord r := by
  unfold typesBody at h
  obtain ⟨tys, h1, h⟩ := ebind_ok h
  obtain ⟨nm, h2, h⟩ := ebind_ok h
  obtain ⟨idv, h3, h⟩ := ebind_ok h
  exact ⟨nm, idv, tys, (epure_ok h).symm⟩

theorem colorBody_ok {inp : String} {data r : Json}
    (h : colorBody inp data = Except.ok r) :
    isMsgNameErr r ∨ isColorRecord r := by
  unfold colorBody at h
  obtain ⟨c, h1, h⟩ := ebind_ok h
  obtain ⟨cn, h2, h⟩ := ebind_ok h
  split at h
  · obtain ⟨nmE, h3, h⟩ := ebind_ok h
    exact .inl ⟨_, nmE, (epure_ok h).symm, by decide⟩
  · obtain ⟨nm, h3, h⟩ := ebind_ok h
    obtain ⟨idv, h4, h⟩ := ebind_ok h
    exact .inr ⟨nm, idv, cn, (epure_ok h).symm⟩

theorem shapeBody_ok {inp : String} {data r : Json}
    (h : shapeBody inp data = Except.ok r) :
    isMsgNameErr r ∨ isShapeRecord r := by
  unfold shapeBody at h
  obtain ⟨s, h1, h⟩ := ebind_ok h
  obtain ⟨sn, h2, h⟩ := ebind_ok h
  split at h
  · obtain ⟨nmE, h3, h⟩ := ebind_ok h
    exact .inl ⟨_, nmE, (epure_ok h).symm, by decide⟩
  · obtain ⟨nm, h3, h⟩ := ebind_ok h
    obtain ⟨idv, h4, h⟩ := ebind_ok h
    exact .inr ⟨nm, idv, sn, (epure_ok h).symm⟩

theorem listBody_ok {field : String} {data r : Json}
    (h : listBody field data = Except.ok r) : isListRecord field r := by
  unfold listBody at h
  obtain ⟨raw, h1, h⟩ := ebind_ok h
  obtain ⟨items, h2, h⟩ := ebind_ok h
  obtain ⟨names, h3, h⟩ := ebind_ok h
  obtain ⟨cnt, h4, h⟩ := ebind_ok h
  exact ⟨cnt, names, (epure_ok h).symm⟩

theorem itemBody_ok {data r : Json} (h : itemBody data = Except.ok r) :
    isItemRecord r := by
  unfold itemBody at h
  obtain ⟨entriesRaw, h1, h⟩ := ebind_ok h
  obtain ⟨entries, h2, h⟩ := ebind_ok h
  obtain ⟨se, h3, h⟩ := ebind_ok h
  obtain ⟨spr, h4, h⟩ := ebind_ok h
  obtain ⟨sprite, h5, h⟩ := ebind_ok h
  obtain ⟨idv, h6, h⟩ := ebind_ok h
  obtain ⟨nm, h7, h⟩ := ebind_ok h
  obtain ⟨cost, h8, h⟩ := ebind_ok h
  obtain ⟨cat, h9, h⟩ := ebind_ok h
  obtain ⟨catName, h10, h⟩ := ebind_ok h
  exact ⟨idv, nm, cost, catName, se, sprite, (epure_ok h).symm⟩

theorem runHandler_dichotomy {msg : String} {body : Json → Except String Json}
    {data r : Json} {Shape : Json → Prop} (hmsg : msg ≠ "")
    (hbody : ∀ rr, body data = Except.ok rr → Shape rr)
    (h : runHandler msg body data = some r) : truthyErr r ∨ Shape r := by
  rcases runHandler_cases h with ⟨rfl, ht, _⟩ | ⟨c, hb, rfl⟩ | hb
  · exact .inl ht
  · exact .inl (truthyErr_mkErr hmsg)
  · exact .inr (hbody r hb)

/-- A value returned by `get_species_data` is either one of the
`{error: message, name}` not-found records or the value of some fetch
(first or second), returned unchanged. -/
theorem get_species_data_cases {up : Upstream} {inp : String} {d : Json}
    (h : get_species_data up inp = some d) :
    isMsgNameErr d ∨ ∃ e, fetch_from_pokeapi up e = d := by
  simp only [get_species_data] at h
  split at h
  · exact Option.noConfusion h
  · split at h
    · exact .inr ⟨_, Option.some.inj h⟩
    · split at h
      · exact Option.noConfusion h
      · split at h
        · exact .inl ⟨_, _, (Option.some.inj h).symm, by decide⟩
        · split at h
          · exact .inr ⟨_, Option.some.inj h⟩
          · exact Option.noConfusion h

/-! ### Claim C1 -/

/-- Upstream answering the creature endpoint for "pikachu" with a 200
response whose JSON body itself carries a truthy `error` field next to a
success field. -/
def upC1 : Upstream := fun u =>
  if u = POKEAPI_BASE_URL ++ "/pokemon/pikachu/" then
    .response 200 "" (.obj [("error", .bool true), ("id", .num 25)])
  else .transportError "unreachable"

/-- C1, counterexample: a 2xx upstream body containing both a truthy
`error` field and the success field `id` is returned verbatim by
`get_pokemon_details`, so the handler's output mixes success fields with
an error field, and its `error` field is not even a message string —
contradicting "never a value mixing success fields with an error
field". -/
theorem c1_mixed_output_counterexample :
    get_pokemon_details upC1 "pikachu" =
      some (Json.obj [("error", .bool true), ("id", .num 25)]) ∧
    jHasKey (Json.obj [("error", .bool true), ("id", .num 25)]) "error" = true ∧
    jHasKey (Json.obj [("error", .bool true), ("id", .num 25)]) "id" = true ∧
    jIsStr (jGetD (Json.obj [("error", .bool true), ("id", .num 25)]) "error"
      Json.null) = false :=
  ⟨rfl, rfl, rfl, rfl⟩

/-- C1 amended: every value a handler returns either has a truthy `error`
field (it is an error record the system built, or a truthy-`error` 2xx
upstream body propagated verbatim, which may mix in success fields) or is
exactly the handler's fully-populated success record, which never
contains an `error` field. -/
theorem c1_handler_output_dichotomy (up : Upstream) (input : String)
    (limit offset : Int) (r : Json) :
    (get_pokemon_details up input = some r →
      truthyErr r ∨ isDetailsRecord r) ∧
    (get_pokemon_types up input = some r →
      truthyErr r ∨ isTypesRecord r) ∧
    (get_pokemon_color up input = some r →
      truthyErr r ∨ isColorRecord r) ∧
    (get_pokemon_shape up input = some r →
      truthyErr r ∨ isShapeRecord r) ∧
    (list_all_pokemon_names up limit offset = some r →
      truthyErr r ∨ isListRecord "pokemon_names" r) ∧
    (get_item_details up input = some r →
      truthyErr r ∨ isItemRecord r) ∧
    (list_all_items up limit offset = some r →
      truthyErr r ∨ isListRecord "item_names" r) := by
  refine ⟨?_, ?_, ?_, ?_, ?_, ?_, ?_⟩
  · intro h
    exact runHandler_dichotomy (by decide)
      (fun rr hb => detailsBody_ok hb) h
  · intro h
    exact runHandler_dichotomy (by decide)
      (fun rr hb => typesBody_ok hb) h
  · intro h
    unfold get_pokemon_color at h
    split at h
    · exact Option.noConfusion h
    · have H := runHandler_dichotomy (by decide)
        (fun rr hb =>
          ((colorBody_ok hb).imp isMsgNameErr_truthyErr id :
            truthyErr rr ∨ isColorRecord rr)) h
      tauto
  · intro h
    unfold get_pokemon_shape at h
    split at h
    · exact Option.noConfusion h
    · have H := runHandler_dichotomy (by decide)
        (fun rr hb =>
          ((shapeBody_ok hb).imp isMsgNameErr_truthyErr id :
            truthyErr rr ∨ isShapeRecord rr)) h
      tauto
  · intro h
    exact runHandler_dichotomy (by decide)
      (fun rr hb => listBody_ok hb) h
  · intro h
    exact runHandler_dichotomy (by decide)
      (fun rr hb => itemBody_ok hb) h
  · intro h
    exact runHandler_dichotomy (by decide)
      (fun rr hb => listBody_ok hb) h

/-- Witness for C1 amended at a concrete input: a transport failure makes
`get_pokemon_details` return the `"API request error"` record, which falls
on the truthy-`error` side of the dichotomy. -/
theorem c1_handler_output_dichotomy_witness :
    truthyErr (mkErr "API request error" "boom") ∨
    isDetailsRecord (mkErr "API request error" "boom") :=
  (c1_handler_output_dichotomy (fun _ => .transportError "boom") "pikachu"
    0 0 (mkErr "API request error" "boom")).1 rfl

/-! ### Claim C2 -/

/-- C2: the fetch helper's contract, by case on the single GET of
`base_url + endpoint`: a 4xx/5xx status yields
`{"error": "API request failed with status <code>", "details": <body>}`,
a transport failure yields `{"error": "API request error", ...}`, any
other failure yields `{"error": "An unexpected error occurred", ...}`,
and otherwise the parsed JSON body is returned. -/
theorem c2_fetch_contract (up : Upstream) (endpoint : String) :
    (∀ s b j, up (POKEAPI_BASE_URL ++ endpoint) = .response s b j →
      (400 ≤ s ∧ s < 600 →
        fetch_from_pokeapi up endpoint =
          mkErr ("API request failed with status " ++ toString s) b) ∧
      (¬(400 ≤ s ∧ s < 600) → fetch_from_pokeapi up endpoint = j)) ∧
    (∀ c, up (POKEAPI_BASE_URL ++ endpoint) = .transportError c →
      fetch_from_pokeapi up endpoint = mkErr "API request error" c) ∧
    (∀ c, up (POKEAPI_BASE_URL ++ endpoint) = .otherFailure c →
      fetch_from_pokeapi up endpoint =
        mkErr "An unexpected error occurred" c) := by
  refine ⟨fun s b j h => ⟨fun hs => ?_, fun hs => ?_⟩,
          fun c h => ?_, fun c h => ?_⟩ <;>
    unfold fetch_from_pokeapi <;> rw [h]
  · show (if 400 ≤ s ∧ s < 600 then
        mkErr ("API request failed with status " ++ toString s) b
      else j) = _
    exact if_pos hs
  · show (if 400 ≤ s ∧ s < 600 then
        mkErr ("API request failed with status " ++ toString s) b
      else j) = _
    exact if_neg hs

/-- Upstream for the C2 witness: 404 on one URL, transport failure
elsewhere. -/
def upC2 : Upstream := fun u =>
  if u = POKEAPI_BASE_URL ++ "/pokemon/0/" then
    .response 404 "Not Found" .null
  else .transportError "conn"

/-- Witness for C2 at concrete inputs: the 404 case and the transport
failure case. -/
theorem c2_fetch_contract_witness :
    fetch_from_pokeapi upC2 "/pokemon/0/" =
      mkErr "API request failed with status 404" "Not Found" ∧
    fetch_from_pokeapi upC2 "/item/1/" = mkErr "API request error" "conn" :=
  ⟨((c2_fetch_contract upC2 "/pokemon/0/").1 404 "Not Found" .null rfl).1
      (by decide),
   (c2_fetch_contract upC2 "/item/1/").2.1 "conn" rfl⟩

/-! ### Claim C4 -/

/-- C4: when the creature GET answers 404, the fetch helper builds the
`"API request failed with status 404"` record, and all four
creature-dependent handlers return exactly that record — whose `error`
field contains `"404"` — and never a success record. -/
theorem c4_upstream_404 (up : Upstream) (input : String) (b : String)
    (j : Json)
    (h : up (POKEAPI_BASE_URL ++ ("/pokemon/" ++ pyLower input ++ "/")) =
      .response 404 b j) :
    get_pokemon_details up input =
      some (mkErr "API request failed with status 404" b) ∧
    get_pokemon_types up input =
      some (mkErr "API request failed with status 404" b) ∧
    get_pokemon_color up input =
      some (mkErr "API request failed with status 404" b) ∧
    get_pokemon_shape up input =
      some (mkErr "API request failed with status 404" b) ∧
    strContains "API request failed with status 404" "404" = true ∧
    ¬ isDetailsRecord (mkErr "API request failed with status 404" b) ∧
    ¬ isTypesRecord (mkErr "API request failed with status 404" b) ∧
    ¬ isColorRecord (mkErr "API request failed with status 404" b) ∧
    ¬ isShapeRecord (mkErr "API request failed with status 404" b) := by
  have hf : fetch_from_pokeapi up ("/pokemon/" ++ pyLower input ++ "/") =
      mkErr "API request failed with status 404" b := by
    unfold fetch_from_pokeapi
    rw [h]
    rfl
  have hs : get_species_data up input =
      some (mkErr "API request failed with status 404" b) := by
    simp only [get_species_data, hf]
    rfl
  refine ⟨?_, ?_, ?_, ?_, rfl, ?_, ?_, ?_, ?_⟩
  · unfold get_pokemon_details
    rw [hf]
    rfl
  · unfold get_pokemon_types
    rw [hf]
    rfl
  · unfold get_pokemon_color
    rw [hs]
    rfl
  · unfold get_pokemon_shape
    rw [hs]
    rfl
  · rintro ⟨i, n, ht, wt, ts, ss, sp, heq⟩
    simp [mkErr] at heq
  · rintro ⟨n, i, ts, heq⟩
    simp [mkErr] at heq
  · rintro ⟨n, i, c, heq⟩
    simp [mkErr] at heq
  · rintro ⟨n, i, s, heq⟩
    simp [mkErr] at heq

/-- Upstream for the C4 witness: 404 for the pikachu creature URL. -/
def upC4 : Upstream := fun u =>
  if u = POKEAPI_BASE_URL ++ "/pokemon/pikachu/" then
    .response 404 "creature not found" .null
  else .transportError "unreachable"

/-- Witness for C4 at a concrete input. -/
theorem c4_upstream_404_witness :
    get_pokemon_details upC4 "Pikachu" =
      some (mkErr "API request failed with status 404" "creature not found") ∧
    get_pokemon_color upC4 "Pikachu" =
      some (mkErr "API request failed with status 404" "creature not found") :=
  ⟨(c4_upstream_404 upC4 "Pikachu" "creature not found" .null rfl).1,
   (c4_upstream_404 upC4 "Pikachu" "creature not found" .null rfl).2.2.1⟩

/-! ### String-replace lemmas for the species resolver -/

theorem isPrefixOf_append (pat t : List Char) :
    pat.isPrefixOf (pat ++ t) = true := by
  induction pat with
  | nil => simp
  | cons p pt ih => simp [List.isPrefixOf, ih]

theorem replaceAux_no_occur (fuel : Nat) (s pat rep : List Char)
    (h : listContainsSub s pat = false) : replaceAux fuel s pat rep = s := by
  induction fuel generalizing s with
  | zero => cases s <;> rfl
  | succ f ih =>
    cases s with
    | nil => rfl
    | cons c rest =>
      cases pat with
      | nil => simp [listContainsSub] at h
      | cons p pt =>
        unfold listContainsSub at h
        rw [Bool.or_eq_false_iff] at h
        simp only [replaceAux]
        simp [h.1, ih rest h.2]

theorem replaceAux_strip (fuel : Nat) (p : Char) (pt rel : List Char)
    (hocc : listContainsSub rel (p :: pt) = false) (hfuel : 1 ≤ fuel) :
    replaceAux fuel ((p :: pt) ++ rel) (p :: pt) [] = rel := by
  obtain ⟨f, rfl⟩ : ∃ f, fuel = f + 1 := ⟨fuel - 1, by omega⟩
  have hpre : (p :: pt).isPrefixOf (p :: (pt ++ rel)) = true :=
    isPrefixOf_append (p :: pt) rel
  rw [show (p :: pt) ++ rel = p :: (pt ++ rel) from rfl]
  simp only [replaceAux]
  rw [if_pos hpre]
  have hdrop : List.drop (p :: pt).length (p :: (pt ++ rel)) = rel := by
    simp
  rw [show (p :: (pt ++ rel)).drop (p :: pt).length = rel from hdrop,
    List.nil_append]
  exact replaceAux_no_occur f rel _ [] hocc

theorem base_append_ne (rel : String) : (POKEAPI_BASE_URL ++ rel) ≠ "" := by
  intro h
  have hd := congrArg String.data h
  rw [String.data_append] at hd
  rw [show ("" : String).data = [] from rfl] at hd
  obtain ⟨h1, _⟩ := List.append_eq_nil.mp hd
  exact absurd h1 (by decide)

/-- Stripping the base URL off `base ++ rel` with Python's replace-all
gives back `rel`, provided the base URL does not also occur inside
`rel`. -/
theorem pyReplaceAll_strip (rel : String)
    (hocc : strContains rel POKEAPI_BASE_URL = false) :
    pyReplaceAll (POKEAPI_BASE_URL ++ rel) POKEAPI_BASE_URL "" = rel := by
  unfold strContains at hocc
  unfold pyReplaceAll
  rcases hB : POKEAPI_BASE_URL.data with _ | ⟨p, pt⟩
  · exact absurd hB (by decide)
  · rw [hB] at hocc
    rw [String.data_append, hB]
    rw [show ("" : String).data = [] from rfl]
    rw [replaceAux_strip _ p pt rel.data hocc (by simp)]

/-! ### Claim C3 -/

/-- C3: two-step species resolution.  If the creature GET succeeds with an
object whose `species.url` is the base URL followed by a relative path
(with the base URL not recurring inside that path, as for every real
PokeAPI URL), the resolver strips the base URL and returns the fetch of
exactly that relative path, unchanged.  If the `species` field is absent,
it returns the `"Species URL not found"` record carrying the first
response's `name` when present. -/
theorem c3_species_resolution (up : Upstream) (input rel : String)
    (st : Nat) (b : String) (fs g : List (String × Json)) :
    (up (POKEAPI_BASE_URL ++ ("/pokemon/" ++ pyLower input ++ "/")) =
        .response st b (.obj fs) →
      ¬(400 ≤ st ∧ st < 600) →
      truthy (jGetD (Json.obj fs) "error" Json.null) = false →
      lookupJ fs "species" = some (.obj g) →
      lookupJ g "url" = some (.str (POKEAPI_BASE_URL ++ rel)) →
      strContains rel POKEAPI_BASE_URL = false →
      get_species_data up input = some (fetch_from_pokeapi up rel)) ∧
    (up (POKEAPI_BASE_URL ++ ("/pokemon/" ++ pyLower input ++ "/")) =
        .response st b (.obj fs) →
      ¬(400 ≤ st ∧ st < 600) →
      truthy (jGetD (Json.obj fs) "error" Json.null) = false →
      lookupJ fs "species" = none →
      get_species_data up input =
        some (Json.obj [("error", .str "Species URL not found"),
                        ("name", jGetD (Json.obj fs) "name" Json.null)])) := by
  constructor
  · intro h1 hst herr hsp hurl hocc
    have hf : fetch_from_pokeapi up ("/pokemon/" ++ pyLower input ++ "/") =
        Json.obj fs := by
      unfold fetch_from_pokeapi
      rw [h1]
      show (if 400 ≤ st ∧ st < 600 then
          mkErr ("API request failed with status " ++ toString st) b
        else Json.obj fs) = Json.obj fs
      exact if_neg hst
    have hspD : jGetD (Json.obj fs) "species" (Json.obj []) = Json.obj g := by
      simp [jGetD, hsp]
    have hurlD : jGetD (Json.obj g) "url" Json.null =
        Json.str (POKEAPI_BASE_URL ++ rel) := by
      simp [jGetD, hurl]
    have htr : truthy (Json.str (POKEAPI_BASE_URL ++ rel)) = true := by
      simp only [truthy, decide_eq_true_eq]
      exact base_append_ne rel
    simp only [get_species_data, hf, pyGet_obj, herr, pyGetD_obj, hspD,
      ok_bind, hurlD, htr]
    simp only [Bool.false_eq_true, if_false, not_true, if_neg,
      Bool.true_eq_false]
    rw [pyReplaceAll_strip rel hocc]
  · intro h1 hst herr hnone
    have hf : fetch_from_pokeapi up ("/pokemon/" ++ pyLower input ++ "/") =
        Json.obj fs := by
      unfold fetch_from_pokeapi
      rw [h1]
      show (if 400 ≤ st ∧ st < 600 then
          mkErr ("API request failed with status " ++ toString st) b
        else Json.obj fs) = Json.obj fs
      exact if_neg hst
    have hspD : jGetD (Json.obj fs) "species" (Json.obj []) = Json.obj [] := by
      simp [jGetD, hnone]
    simp only [get_species_data, hf, pyGet_obj, herr, pyGetD_obj, hspD,
      ok_bind]
    simp [truthy, jGetD, lookupJ]

/-- Upstream for the C3 witness: a creature whose `species.url` is the
absolute species URL, and the species record at the stripped path. -/
def upC3 : Upstream := fun u =>
  if u = POKEAPI_BASE_URL ++ "/pokemon/pikachu/" then
    .response 200 ""
      (.obj [("name", .str "pikachu"),
             ("species", .obj [("name", .str "pikachu"),
               ("url", .str (POKEAPI_BASE_URL ++ "/pokemon-species/25/"))])])
  else if u = POKEAPI_BASE_URL ++ "/pokemon-species/25/" then
    .response 200 ""
      (.obj [("name", .str "pikachu"), ("id", .num 25),
             ("color", .obj [("name", .str "yellow")])])
  else .transportError "unreachable"

/-- Upstream for the C3 witness's absent-species part. -/
def upC3b : Upstream := fun u =>
  if u = POKEAPI_BASE_URL ++ "/pokemon/missingno/" then
    .response 200 "" (.obj [("name", .str "missingno")])
  else .transportError "unreachable"

/-- Witness for C3 at concrete inputs: the resolver returns the fetch of
the stripped relative path, and the not-found record when `species` is
absent. -/
theorem c3_species_resolution_witness :
    get_species_data upC3 "pikachu" =
      some (fetch_from_pokeapi upC3 "/pokemon-species/25/") ∧
    get_species_data upC3b "missingno" =
      some (Json.obj [("error", .str "Species URL not found"),
                      ("name", .str "missingno")]) := by
  constructor
  · exact (c3_species_resolution upC3 "pikachu" "/pokemon-species/25/" 200 ""
      [("name", .str "pikachu"),
       ("species", .obj [("name", .str "pikachu"),
         ("url", .str (POKEAPI_BASE_URL ++ "/pokemon-species/25/"))])]
      [("name", .str "pikachu"),
       ("url", .str (POKEAPI_BASE_URL ++ "/pokemon-species/25/"))]).1
      rfl (by decide) rfl rfl rfl rfl
  · exact (c3_species_resolution upC3b "missingno" "" 200 ""
      [("name", .str "missingno")] []).2 rfl (by decide) rfl rfl

/-! ### Normalization is idempotent (for claim C5) -/

theorem toNat_ofNat_valid (n : Nat) (h : n.isValidChar) :
    (Char.ofNat n).toNat = n := by
  unfold Char.ofNat
  rw [dif_pos h]
  rfl

theorem pyLowerChar_idem (c : Char) :
    pyLowerChar (pyLowerChar c) = pyLowerChar c := by
  unfold pyLowerChar
  by_cases h : 65 ≤ c.toNat ∧ c.toNat ≤ 90
  · rw [if_pos h]
    have hval : (Char.ofNat (c.toNat + 32)).toNat = c.toNat + 32 :=
      toNat_ofNat_valid _ (Or.inl (by omega))
    rw [if_neg (by rw [hval]; omega)]
  · rw [if_neg h, if_neg h]

theorem pyLowerChar_fix {c : Char} (h : ¬(65 ≤ c.toNat ∧ c.toNat ≤ 90)) :
    pyLowerChar c = c := by
  unfold pyLowerChar
  rw [if_neg h]

theorem pyLower_idem (s : String) : pyLower (pyLower s) = pyLower s := by
  unfold pyLower
  show String.mk _ = String.mk _
  congr 1
  rw [List.map_map]
  exact List.map_congr_left fun c _ => pyLowerChar_idem c

/-- Characters produced by `replaceAux` come from the subject or from the
replacement. -/
theorem replaceAux_mem (fuel : Nat) (s pat rep : List Char) :
    ∀ x ∈ replaceAux fuel s pat rep, x ∈ s ∨ x ∈ rep := by
  induction fuel generalizing s with
  | zero =>
    intro x hx
    cases s with
    | nil => simp [replaceAux] at hx
    | cons c rest => exact .inl hx
  | succ f ih =>
    intro x hx
    cases s with
    | nil => simp [replaceAux] at hx
    | cons c rest =>
      simp only [replaceAux] at hx
      by_cases hp : pat.isPrefixOf (c :: rest) = true
      · rw [if_pos hp] at hx
        rcases List.mem_append.mp hx with hr | hrec
        · exact .inr hr
        · rcases ih _ x hrec with hs | hr
          · exact .inl (List.mem_of_mem_drop hs)
          · exact .inr hr
      · rw [if_neg hp] at hx
        rcases List.mem_cons.mp hx with rfl | hrec
        · exact .inl (List.mem_cons_self x rest)
        · rcases ih rest x hrec with hs | hr
          · exact .inl (List.mem_cons_of_mem c hs)
          · exact .inr hr

/-- With enough fuel, single-character replacement leaves no occurrence of
the replaced character (when the replacement differs from it). -/
theorem replaceAux_single_gone (fuel : Nat) (l : List Char) (c r : Char)
    (hcr : r ≠ c) (hfuel : l.length ≤ fuel) :
    ∀ x ∈ replaceAux fuel l [c] [r], x ≠ c := by
  induction fuel generalizing l with
  | zero =>
    intro x hx
    have : l = [] := List.eq_nil_of_length_eq_zero (by omega)
    subst this
    simp [replaceAux] at hx
  | succ f ih =>
    intro x hx
    cases l with
    | nil => simp [replaceAux] at hx
    | cons d rest =>
      simp only [replaceAux] at hx
      by_cases hp : [c].isPrefixOf (d :: rest) = true
      · rw [if_pos hp] at hx
        rcases List.mem_append.mp hx with hr | hrec
        · rcases List.mem_singleton.mp hr with rfl
          exact hcr
        · exact ih _ (by simp at hfuel ⊢; omega) x hrec
      · rw [if_neg hp] at hx
        rcases List.mem_cons.mp hx with rfl | hrec
        · intro hdc
          apply hp
          subst hdc
          simp [List.isPrefixOf]
        · exact ih rest (by simp at hfuel ⊢; omega) x hrec

/-- If a character never occurs in a list, no single-character pattern made
of it occurs either. -/
theorem contains_single_false {c : Char} {l : List Char}
    (h : ∀ x ∈ l, x ≠ c) : listContainsSub l [c] = false := by
  induction l with
  | nil => rfl
  | cons d rest ih =>
    unfold listContainsSub
    rw [Bool.or_eq_false_iff]
    constructor
    · simp only [List.isPrefixOf]
      have : d ≠ c := fun hdc => h d (List.mem_cons_self d rest) (by rw [hdc])
      simp [beq_iff_eq]
      intro hcd
      exact absurd hcd.symm this
    · exact ih fun x hx => h x (List.mem_cons_of_mem d hx)

theorem normalizeItem_idem (s : String) :
    normalizeItem (normalizeItem s) = normalizeItem s := by
  have hlower : pyLower (normalizeItem s) = normalizeItem s := by
    unfold normalizeItem pyReplaceAll
    show String.mk _ = String.mk _
    congr 1
    have hfix : ∀ x ∈ replaceAux (pyLower s).data.length (pyLower s).data
        " ".data "-".data, pyLowerChar x = x := by
      intro x hx
      rcases replaceAux_mem _ _ _ _ x hx with hs | hr
      · unfold pyLower at hs
        rcases List.mem_map.mp hs with ⟨y, _, rfl⟩
        exact pyLowerChar_idem y
      · rcases List.mem_singleton.mp hr with rfl
        decide
    calc (replaceAux (pyLower s).data.length (pyLower s).data
            " ".data "-".data).map pyLowerChar
        = (replaceAux (pyLower s).data.length (pyLower s).data
            " ".data "-".data).map id := List.map_congr_left fun x hx => hfix x hx
      _ = _ := List.map_id _
  have hnosp : strContains (normalizeItem s) " " = false := by
    unfold strContains
    apply contains_single_false
    intro x hx
    unfold normalizeItem pyReplaceAll at hx
    exact replaceAux_single_gone _ _ ' ' '-' (by decide) (by simp) x hx
  calc normalizeItem (normalizeItem s)
      = pyReplaceAll (pyLower (normalizeItem s)) " " "-" := rfl
    _ = pyReplaceAll (normalizeItem s) " " "-" := by rw [hlower]
    _ = normalizeItem s := by
        unfold pyReplaceAll
        rw [replaceAux_no_occur _ _ _ _ hnosp]

/-! ### Claim C5 -/

theorem runHandler_congr {msg : String}
    {body1 body2 : Json → Except String Json} {data : Json}
    (hb : body1 data = body2 data) :
    runHandler msg body1 data = runHandler msg body2 data := by
  unfold runHandler
  rw [hb]

theorem get_species_data_norm (up : Upstream) {a b : String}
    (h : pyLower a = pyLower b) :
    get_species_data up a = get_species_data up b := by
  unfold get_species_data
  rw [h]

theorem colorBody_norm (a b : String) {fs : List (String × Json)}
    (hname : (lookupJ fs "name").isSome = true) :
    colorBody a (Json.obj fs) = colorBody b (Json.obj fs) := by
  unfold colorBody
  have hg : pyGetD (Json.obj fs) "name" (Json.str a) =
      pyGetD (Json.obj fs) "name" (Json.str b) := by
    obtain ⟨v, hv⟩ := Option.isSome_iff_exists.mp hname
    simp only [pyGetD, hv, Option.getD_some]
  rw [hg]

theorem shapeBody_norm (a b : String) {fs : List (String × Json)}
    (hname : (lookupJ fs "name").isSome = true) :
    shapeBody a (Json.obj fs) = shapeBody b (Json.obj fs) := by
  unfold shapeBody
  have hg : pyGetD (Json.obj fs) "name" (Json.str a) =
      pyGetD (Json.obj fs) "name" (Json.str b) := by
    obtain ⟨v, hv⟩ := Option.isSome_iff_exists.mp hname
    simp only [pyGetD, hv, Option.getD_some]
  rw [hg]

/-- Upstream for the C5 counterexample: the creature resolves to a species
record that has a `color` but no `name` field. -/
def upC5 : Upstream := fun u =>
  if u = POKEAPI_BASE_URL ++ "/pokemon/pikachu/" then
    .response 200 ""
      (.obj [("species", .obj
        [("url", .str (POKEAPI_BASE_URL ++ "/pokemon-species/25/"))])])
  else if u = POKEAPI_BASE_URL ++ "/pokemon-species/25/" then
    .response 200 "" (.obj [("color", .obj [("name", .str "yellow")])])
  else .transportError "unreachable"

/-- C5, counterexample: `get_pokemon_color` does not depend on its
identifier only through lowercasing — when the species record lacks a
`name`, the raw identifier is used verbatim as the fallback `name`, so
`"Pikachu"` and `"pikachu"` give different results. -/
theorem c5_normalization_counterexample :
    get_pokemon_color upC5 "Pikachu" =
      some (Json.obj [("name", .str "Pikachu"), ("id", Json.null),
                      ("color", .str "yellow")]) ∧
    get_pokemon_color upC5 "pikachu" =
      some (Json.obj [("name", .str "pikachu"), ("id", Json.null),
                      ("color", .str "yellow")]) ∧
    get_pokemon_color upC5 "Pikachu" ≠ get_pokemon_color upC5 "pikachu" := by
  refine ⟨rfl, rfl, ?_⟩
  intro heq
  rw [show get_pokemon_color upC5 "Pikachu" =
      some (Json.obj [("name", .str "Pikachu"), ("id", Json.null),
                      ("color", .str "yellow")]) from rfl,
    show get_pokemon_color upC5 "pikachu" =
      some (Json.obj [("name", .str "pikachu"), ("id", Json.null),
                      ("color", .str "yellow")]) from rfl] at heq
  simp at heq

/-- C5 amended: the details, types and species computations depend on the
identifier only through lowercasing, and item lookup only through
lowercase-and-hyphenate; color and shape agree on identifiers with equal
lowercasings whenever every species record they resolve carries a `name`
field (otherwise the raw identifier leaks into the fallback `name`); and
both normalizations are idempotent. -/
theorem c5_normalization :
    (∀ (up : Upstream) (a b : String), pyLower a = pyLower b →
      get_pokemon_details up a = get_pokemon_details up b ∧
      get_pokemon_types up a = get_pokemon_types up b ∧
      get_species_data up a = get_species_data up b) ∧
    (∀ (up : Upstream) (a b : String), normalizeItem a = normalizeItem b →
      get_item_details up a = get_item_details up b) ∧
    (∀ (up : Upstream) (a b : String), pyLower a = pyLower b →
      (∀ fs, get_species_data up a = some (Json.obj fs) →
        (lookupJ fs "name").isSome = true) →
      get_pokemon_color up a = get_pokemon_color up b ∧
      get_pokemon_shape up a = get_pokemon_shape up b) ∧
    (∀ s : String, pyLower (pyLower s) = pyLower s ∧
      normalizeItem (normalizeItem s) = normalizeItem s) := by
  refine ⟨fun up a b h => ⟨?_, ?_, get_species_data_norm up h⟩,
          fun up a b h => ?_, fun up a b h hname => ⟨?_, ?_⟩,
          fun s => ⟨pyLower_idem s, normalizeItem_idem s⟩⟩
  · unfold get_pokemon_details
    rw [h]
  · unfold get_pokemon_types
    rw [h]
  · unfold get_item_details
    rw [h]
  · unfold get_pokemon_color
    rw [show get_species_data up b = get_species_data up a from
      (get_species_data_norm up h).symm]
    cases hs : get_species_data up a with
    | none => rfl
    | some data =>
      cases data with
      | obj fs =>
        exact runHandler_congr (colorBody_norm a b (hname fs hs))
      | null => rfl
      | bool v => rfl
      | num v => rfl
      | str v => rfl
      | arr v => rfl
  · unfold get_pokemon_shape
    rw [show get_species_data up b = get_species_data up a from
      (get_species_data_norm up h).symm]
    cases hs : get_species_data up a with
    | none => rfl
    | some data =>
      cases data with
      | obj fs =>
        exact runHandler_congr (shapeBody_norm a b (hname fs hs))
      | null => rfl
      | bool v => rfl
      | num v => rfl
      | str v => rfl
      | arr v => rfl

/-- Witness for C5 amended at concrete inputs: with a species record that
does carry a `name`, "Pikachu"/"pikachu" agree on details and on color,
and "Poke Ball"/"poke-ball" agree on item lookup. -/
theorem c5_normalization_witness :
    get_pokemon_details upC3 "Pikachu" = get_pokemon_details upC3 "pikachu" ∧
    get_item_details upC3 "Poke Ball" = get_item_details upC3 "poke-ball" ∧
    get_pokemon_color upC3 "Pikachu" = get_pokemon_color upC3 "pikachu" := by
  refine ⟨(c5_normalization.1 upC3 "Pikachu" "pikachu" rfl).1,
          c5_normalization.2.1 upC3 "Poke Ball" "poke-ball" rfl,
          (c5_normalization.2.2.1 upC3 "Pikachu" "pikachu" rfl ?_).1⟩
  intro fs hfs
  rw [show get_species_data upC3 "Pikachu" =
      some (Json.obj [("name", .str "pikachu"), ("id", .num 25),
                      ("color", .obj [("name", .str "yellow")])]) from rfl]
      at hfs
  rw [← Json.obj.inj (Option.some.inj hfs)]
  rfl

/-! ### Claim C9 -/

theorem isListRecord_not_truthyErr {field : String} {r : Json}
    (hf : field ≠ "error") (h : isListRecord field r) : ¬ truthyErr r := by
  obtain ⟨c, ns, rfl⟩ := h
  unfold truthyErr jGetD lookupJ
  simp [lookupJ, hf, truthy]

theorem isItemRecord_not_truthyErr {r : Json} (h : isItemRecord r) :
    ¬ truthyErr r := by
  obtain ⟨i, n, c, cat, se, sp, rfl⟩ := h
  unfold truthyErr
  simp [jGetD, lookupJ, truthy]

/-- Taxonomy of the truthy-`error` outputs of a fetch-then-reshape handler:
a processing-failure or fetch-helper `{error, details}` record, a body
shape the `try` block itself built, or a 2xx upstream body propagated
verbatim. -/
theorem runHandler_fetch_taxonomy {msg : String}
    {body : Json → Except String Json} {up : Upstream} {e : String}
    {r : Json} (hmsg : msg ≠ "")
    (hbody : ∀ rr, body (fetch_from_pokeapi up e) = Except.ok rr →
      truthyErr rr → isMsgNameErr rr)
    (h : runHandler msg body (fetch_from_pokeapi up e) = some r)
    (ht : truthyErr r) :
    isMsgDetailsErr r ∨ isMsgNameErr r ∨ isUpstreamBody up r := by
  rcases runHandler_cases h with ⟨rfl, _, _⟩ | ⟨c, hb, rfl⟩ | hb
  · rcases fetch_cases up e with hm | hu
    · exact .inl hm
    · exact .inr (.inr hu)
  · exact .inl ⟨msg, c, rfl, hmsg⟩
  · exact .inr (.inl (hbody r hb ht))

/-- C9 amended: every truthy-`error` record a handler returns is either a
`{error: message, details: string}` record (fetch-helper and
processing-failure errors), one of the `{error: message, name}` not-found
records of the species/color/shape path — which carry no `details` field —
or a 2xx upstream body propagated verbatim (of arbitrary shape). -/
theorem c9_error_taxonomy (up : Upstream) (input : String)
    (limit offset : Int) (r : Json) :
    (get_pokemon_details up input = some r → truthyErr r →
      isMsgDetailsErr r ∨ isMsgNameErr r ∨ isUpstreamBody up r) ∧
    (get_pokemon_types up input = some r → truthyErr r →
      isMsgDetailsErr r ∨ isMsgNameErr r ∨ isUpstreamBody up r) ∧
    (get_pokemon_color up input = some r → truthyErr r →
      isMsgDetailsErr r ∨ isMsgNameErr r ∨ isUpstreamBody up r) ∧
    (get_pokemon_shape up input = some r → truthyErr r →
      isMsgDetailsErr r ∨ isMsgNameErr r ∨ isUpstreamBody up r) ∧
    (list_all_pokemon_names up limit offset = some r → truthyErr r →
      isMsgDetailsErr r ∨ isMsgNameErr r ∨ isUpstreamBody up r) ∧
    (get_item_details up input = some r → truthyErr r →
      isMsgDetailsErr r ∨ isMsgNameErr r ∨ isUpstreamBody up r) ∧
    (list_all_items up limit offset = some r → truthyErr r →
      isMsgDetailsErr r ∨ isMsgNameErr r ∨ isUpstreamBody up r) := by
  have hspecies : ∀ (ai : String) (sBody : String → Json → Except String Json)
      (msg : String), msg ≠ "" →
      (∀ data rr, sBody ai data = Except.ok rr → truthyErr rr →
        isMsgNameErr rr) →
      (match get_species_data up input with
        | none => none
        | some data => runHandler msg (sBody ai) data) = some r →
      truthyErr r →
      isMsgDetailsErr r ∨ isMsgNameErr r ∨ isUpstreamBody up r := by
    intro ai sBody msg hmsg hbody h ht
    cases hs : get_species_data up input with
    | none => rw [hs] at h; exact Option.noConfusion h
    | some data =>
      rw [hs] at h
      rcases runHandler_cases h with ⟨rfl, _, _⟩ | ⟨c, hb, rfl⟩ | hb
      · rcases get_species_data_cases hs with hm | ⟨e, hf⟩
        · exact .inr (.inl hm)
        · rw [← hf]
          rcases fetch_cases up e with hm | hu
          · exact .inl hm
          · exact .inr (.inr hu)
      · exact .inl ⟨msg, c, rfl, hmsg⟩
      · exact .inr (.inl (hbody data r hb ht))
  refine ⟨fun h ht => ?_, fun h ht => ?_, fun h ht => ?_, fun h ht => ?_,
          fun h ht => ?_, fun h ht => ?_, fun h ht => ?_⟩
  · exact runHandler_fetch_taxonomy (by decide)
      (fun rr hb htr => absurd htr (isDetailsRecord_not_truthyErr
        (detailsBody_ok hb))) h ht
  · exact runHandler_fetch_taxonomy (by decide)
      (fun rr hb htr => absurd htr (isTypesRecord_not_truthyErr
        (typesBody_ok hb))) h ht
  · unfold get_pokemon_color at h
    exact hspecies input colorBody "Failed to process Pokémon color"
      (by decide)
      (fun data rr hb htr =>
        (colorBody_ok hb).resolve_right
          (fun hc => absurd htr (isColorRecord_not_truthyErr hc))) h ht
  · unfold get_pokemon_shape at h
    exact hspecies input shapeBody "Failed to process Pokémon shape"
      (by decide)
      (fun data rr hb htr =>
        (shapeBody_ok hb).resolve_right
          (fun hc => absurd htr (isShapeRecord_not_truthyErr hc))) h ht
  · exact runHandler_fetch_taxonomy (by decide)
      (fun rr hb htr => absurd htr (isListRecord_not_truthyErr (by decide)
        (listBody_ok hb))) h ht
  · exact runHandler_fetch_taxonomy (by decide)
      (fun rr hb htr => absurd htr (isItemRecord_not_truthyErr
        (itemBody_ok hb))) h ht
  · exact runHandler_fetch_taxonomy (by decide)
      (fun rr hb htr => absurd htr (isListRecord_not_truthyErr (by decide)
        (listBody_ok hb))) h ht

/-- Upstream for the C9 counterexample: a creature record without a
`species` field. -/
def upC9 : Upstream := fun u =>
  if u = POKEAPI_BASE_URL ++ "/pokemon/missingno/" then
    .response 200 "" (.obj [("name", .str "missingno")])
  else .transportError "unreachable"

/-- C9, counterexample: the `"Species URL not found"` record returned by
`get_pokemon_color` has shape `{error, name}` with no `details` field at
all, so not every handler error record has the `{error: message,
details: string}` shape. -/
theorem c9_error_shape_counterexample :
    get_pokemon_color upC9 "missingno" =
      some (Json.obj [("error", .str "Species URL not found"),
                      ("name", .str "missingno")]) ∧
    jHasKey (Json.obj [("error", .str "Species URL not found"),
                       ("name", .str "missingno")]) "details" = false ∧
    jHasKey (Json.obj [("error", .str "Species URL not found"),
                       ("name", .str "missingno")]) "error" = true :=
  ⟨rfl, rfl, rfl⟩

/-- Upstream for the C9 witness: transport failure everywhere. -/
def upW9 : Upstream := fun _ => .transportError "boom"

/-- Witness for C9 amended at a concrete input. -/
theorem c9_error_taxonomy_witness :
    isMsgDetailsErr (mkErr "API request error" "boom") ∨
    isMsgNameErr (mkErr "API request error" "boom") ∨
    isUpstreamBody upW9 (mkErr "API request error" "boom") :=
  (c9_error_taxonomy upW9 "pikachu" 0 0
    (mkErr "API request error" "boom")).1 rfl rfl

/-! ### Claim C7 -/

/-- The field at `k`, when present, is an object (or the field is
absent). -/
def objOrAbsent (fs : List (String × Json)) (k : String) : Prop :=
  ∀ v, lookupJ fs k = some v → ∃ g, v = Json.obj g

/-- An `effect_entries` element on which the Python loop cannot raise: an
object whose `language` field, when present, is an object. -/
def cleanEntry (e : Json) : Prop :=
  ∃ g, e = Json.obj g ∧ objOrAbsent g "language"

theorem jGetD_objOrAbsent {fs : List (String × Json)} {k : String}
    (h : objOrAbsent fs k) :
    ∃ g, jGetD (Json.obj fs) k (Json.obj []) = Json.obj g := by
  cases hl : lookupJ fs k with
  | none => exact ⟨[], by simp [jGetD, hl]⟩
  | some v =>
    obtain ⟨g, rfl⟩ := h v hl
    exact ⟨g, by simp [jGetD, hl]⟩

/-- The spec's description of the short-effect selection: the
`short_effect` of the first `effect_entries` element whose
`language.name` equals `"en"`, defaulting to `"N/A"`. -/
def specShortEffect (entries : List Json) : Json :=
  match entries.find? (fun e =>
    isStrEq (jGetD (jGetD e "language" (Json.obj [])) "name" Json.null)
      "en") with
  | some e => jGetD e "short_effect" (Json.str "N/A")
  | none => Json.str "N/A"

/-- The source's break-at-first-match loop computes exactly the spec's
first-match selection, on entries it cannot raise on. -/
theorem findShortEffect_spec (entries : List Json)
    (hclean : ∀ e ∈ entries, cleanEntry e) :
    findShortEffect entries = Except.ok (specShortEffect entries) := by
  induction entries with
  | nil => rfl
  | cons e rest ih =>
    obtain ⟨g, rfl, hlang⟩ := hclean e (List.mem_cons_self e rest)
    obtain ⟨gl, hgl⟩ := jGetD_objOrAbsent hlang
    unfold findShortEffect
    simp only [pyGetD_obj, hgl, ok_bind, pyGet_obj]
    by_cases hen : isStrEq (jGetD (Json.obj gl) "name" Json.null) "en" = true
    · rw [if_pos hen]
      unfold specShortEffect
      rw [List.find?_cons_of_pos _ (by rw [hgl]; exact hen)]
    · rw [if_neg hen,
        ih (fun x hx => hclean x (List.mem_cons_of_mem _ hx))]
      unfold specShortEffect
      rw [List.find?_cons_of_neg _ (by rw [hgl]; exact hen)]

/-- The item `try` body, on a clean success record, builds exactly the
documented projection, with `short_effect` given by the spec-side
selector. -/
theorem itemBody_eq {fs : List (String × Json)} {entries : List Json}
    (hent : jGetD (Json.obj fs) "effect_entries" (Json.arr []) =
      Json.arr entries)
    (hclean : ∀ e ∈ entries, cleanEntry e)
    (hspr : objOrAbsent fs "sprites") (hcat : objOrAbsent fs "category") :
    itemBody (Json.obj fs) = Except.ok (Json.obj
      [("id", jGetD (Json.obj fs) "id" Json.null),
       ("name", jGetD (Json.obj fs) "name" Json.null),
       ("cost", jGetD (Json.obj fs) "cost" (Json.num 0)),
       ("category", jGetD (jGetD (Json.obj fs) "category" (Json.obj []))
          "name" Json.null),
       ("short_effect", specShortEffect entries),
       ("sprite_url", jGetD (jGetD (Json.obj fs) "sprites" (Json.obj []))
          "default" Json.null)]) := by
  obtain ⟨gs, hgs⟩ := jGetD_objOrAbsent hspr
  obtain ⟨gc, hgc⟩ := jGetD_objOrAbsent hcat
  unfold itemBody
  simp only [pyGetD_obj, hent, ok_bind, pyIter,
    findShortEffect_spec entries hclean, hgs, hgc, pyGet_obj]
  rfl

/-- Like `runHandler_ok` below but stated directly: on an object fetch
value with falsy `error`, the handler returns exactly what the `try` body
returns. -/
theorem runHandler_ok {msg : String} {body : Json → Except String Json}
    {fs : List (String × Json)} {r : Json}
    (herr : truthy (jGetD (Json.obj fs) "error" Json.null) = false)
    (hb : body (Json.obj fs) = Except.ok r) :
    runHandler msg body (Json.obj fs) = some r := by
  unfold runHandler
  rw [pyGet_obj]
  show (if truthy (jGetD (Json.obj fs) "error" Json.null) = true
      then some (Json.obj fs)
      else some (match body (Json.obj fs) with
                 | .ok rr => rr
                 | .error c => mkErr msg c)) = some r
  rw [if_neg (by simp [herr]), hb]

/-- C7: on a successful item fetch, `short_effect` is the `short_effect`
of the first `effect_entries` element whose `language.name` is `"en"`
(via the spec-side selector `specShortEffect`), and `"N/A"` when no entry
matches. -/
theorem c7_item_short_effect (up : Upstream) (input : String) (st : Nat)
    (b : String) (fs : List (String × Json)) (entries : List Json) :
    up (POKEAPI_BASE_URL ++ ("/item/" ++ normalizeItem input ++ "/")) =
      .response st b (.obj fs) →
    ¬(400 ≤ st ∧ st < 600) →
    truthy (jGetD (Json.obj fs) "error" Json.null) = false →
    jGetD (Json.obj fs) "effect_entries" (Json.arr []) = Json.arr entries →
    (∀ e ∈ entries, cleanEntry e) →
    objOrAbsent fs "sprites" →
    objOrAbsent fs "category" →
    get_item_details up input = some (Json.obj
      [("id", jGetD (Json.obj fs) "id" Json.null),
       ("name", jGetD (Json.obj fs) "name" Json.null),
       ("cost", jGetD (Json.obj fs) "cost" (Json.num 0)),
       ("category", jGetD (jGetD (Json.obj fs) "category" (Json.obj []))
          "name" Json.null),
       ("short_effect", specShortEffect entries),
       ("sprite_url", jGetD (jGetD (Json.obj fs) "sprites" (Json.obj []))
          "default" Json.null)]) ∧
    (entries.find? (fun e =>
        isStrEq (jGetD (jGetD e "language" (Json.obj [])) "name" Json.null)
          "en") = none →
      specShortEffect entries = Json.str "N/A") := by
  intro hup hst herr hent hclean hspr hcat
  have hf : fetch_from_pokeapi up ("/item/" ++ normalizeItem input ++ "/") =
      Json.obj fs := by
    unfold fetch_from_pokeapi
    rw [hup]
    show (if 400 ≤ st ∧ st < 600 then
        mkErr ("API request failed with status " ++ toString st) b
      else Json.obj fs) = Json.obj fs
    exact if_neg hst
  constructor
  · unfold get_item_details
    rw [hf]
    exact runHandler_ok herr (itemBody_eq hent hclean hspr hcat)
  · intro hn
    unfold specShortEffect
    rw [hn]

/-- Upstream for the C7 witness: an item whose only effect entry is
Japanese. -/
def upC7 : Upstream := fun u =>
  if u = POKEAPI_BASE_URL ++ "/item/x-item/" then
    .response 200 "" (.obj
      [("id", .num 99), ("name", .str "x-item"),
       ("effect_entries", .arr
         [.obj [("language", .obj [("name", .str "ja")]),
                ("short_effect", .str "J")]])])
  else .transportError "unreachable"

/-- Witness for C7 at a concrete input: only a Japanese effect entry, so
`short_effect` is `"N/A"`. -/
theorem c7_item_short_effect_witness :
    get_item_details upC7 "X Item" = some (Json.obj
      [("id", .num 99), ("name", .str "x-item"), ("cost", .num 0),
       ("category", Json.null), ("short_effect", .str "N/A"),
       ("sprite_url", Json.null)]) := by
  have h := (c7_item_short_effect upC7 "X Item" 200 ""
    [("id", .num 99), ("name", .str "x-item"),
     ("effect_entries", .arr
       [.obj [("language", .obj [("name", .str "ja")]),
              ("short_effect", .str "J")]])]
    [.obj [("language", .obj [("name", .str "ja")]),
           ("short_effect", .str "J")]]
    rfl (by decide) rfl rfl
    (by
      intro e he
      rcases List.mem_singleton.mp he with rfl
      exact ⟨_, rfl, fun v hv =>
        ⟨[("name", .str "ja")], (Option.some.inj hv).symm⟩⟩)
    (by intro v hv; exact Option.noConfusion hv)
    (by intro v hv; exact Option.noConfusion hv)).1
  exact h

/-! ### Claims C8 and C10 -/

/-- The details `try` body on a clean success record: the documented
projection, with `sprite_url` preferring the official-artwork URL when it
is truthy and falling back to `sprites.front_default` otherwise. -/
theorem detailsBody_eq {fs gs go ga : List (String × Json)}
    {tys : List Json} {sts : List (String × Json)}
    (htys : detailsTypes (Json.obj fs) = Except.ok tys)
    (hsts : detailsStats (Json.obj fs) = Except.ok sts)
    (hgs : jGetD (Json.obj fs) "sprites" (Json.obj []) = Json.obj gs)
    (hgo : jGetD (Json.obj gs) "other" (Json.obj []) = Json.obj go)
    (hga : jGetD (Json.obj go) "official-artwork" (Json.obj []) =
      Json.obj ga) :
    detailsBody (Json.obj fs) = Except.ok (Json.obj
      [("id", jGetD (Json.obj fs) "id" Json.null),
       ("name", jGetD (Json.obj fs) "name" Json.null),
       ("height", jGetD (Json.obj fs) "height" Json.null),
       ("weight", jGetD (Json.obj fs) "weight" Json.null),
       ("types", Json.arr tys), ("stats", Json.obj sts),
       ("sprite_url",
         if truthy (jGetD (Json.obj ga) "front_default" Json.null) = true
         then jGetD (Json.obj ga) "front_default" Json.null
         else jGetD (Json.obj gs) "front_default" Json.null)]) := by
  unfold detailsBody detailsSprite
  simp only [htys, hsts, ok_bind, pyGetD_obj, hgs, hgo, hga, pyGet_obj]
  by_cases hoa : truthy (jGetD (Json.obj ga) "front_default" Json.null) = true
  · rw [if_pos hoa, if_pos hoa]
    rfl
  · rw [if_neg hoa, if_neg hoa]
    simp only [pyGetD_obj, hgs, ok_bind, pyGet_obj]
    rfl

/-- The success record of `get_pokemon_details` on a clean creature fetch,
shared by the two sprite claims. -/
theorem get_pokemon_details_eq (up : Upstream) (input : String) (st : Nat)
    (b : String) {fs gs go ga : List (String × Json)} {tys : List Json}
    {sts : List (String × Json)}
    (hup : up (POKEAPI_BASE_URL ++ ("/pokemon/" ++ pyLower input ++ "/")) =
      .response st b (.obj fs))
    (hst : ¬(400 ≤ st ∧ st < 600))
    (herr : truthy (jGetD (Json.obj fs) "error" Json.null) = false)
    (htys : detailsTypes (Json.obj fs) = Except.ok tys)
    (hsts : detailsStats (Json.obj fs) = Except.ok sts)
    (hgs : jGetD (Json.obj fs) "sprites" (Json.obj []) = Json.obj gs)
    (hgo : jGetD (Json.obj gs) "other" (Json.obj []) = Json.obj go)
    (hga : jGetD (Json.obj go) "official-artwork" (Json.obj []) =
      Json.obj ga) :
    get_pokemon_details up input = some (Json.obj
      [("id", jGetD (Json.obj fs) "id" Json.null),
       ("name", jGetD (Json.obj fs) "name" Json.null),
       ("height", jGetD (Json.obj fs) "height" Json.null),
       ("weight", jGetD (Json.obj fs) "weight" Json.null),
       ("types", Json.arr tys), ("stats", Json.obj sts),
       ("sprite_url",
         if truthy (jGetD (Json.obj ga) "front_default" Json.null) = true
         then jGetD (Json.obj ga) "front_default" Json.null
         else jGetD (Json.obj gs) "front_default" Json.null)]) := by
  have hf : fetch_from_pokeapi up ("/pokemon/" ++ pyLower input ++ "/") =
      Json.obj fs := by
    unfold fetch_from_pokeapi
    rw [hup]
    show (if 400 ≤ st ∧ st < 600 then
        mkErr ("API request failed with status " ++ toString st) b
      else Json.obj fs) = Json.obj fs
    exact if_neg hst
  unfold get_pokemon_details
  rw [hf]
  exact runHandler_ok herr (detailsBody_eq htys hsts hgs hgo hga)

/-- C8: on a successful creature fetch, `sprite_url` prefers the
official-artwork `front_default`, falls back to `sprites.front_default`
when the former is null, and is null when both are. -/
theorem c8_sprite_fallback (up : Upstream) (input : String) (st : Nat)
    (b : String) (fs gs go ga : List (String × Json)) (tys : List Json)
    (sts : List (String × Json)) :
    up (POKEAPI_BASE_URL ++ ("/pokemon/" ++ pyLower input ++ "/")) =
      .response st b (.obj fs) →
    ¬(400 ≤ st ∧ st < 600) →
    truthy (jGetD (Json.obj fs) "error" Json.null) = false →
    detailsTypes (Json.obj fs) = Except.ok tys →
    detailsStats (Json.obj fs) = Except.ok sts →
    jGetD (Json.obj fs) "sprites" (Json.obj []) = Json.obj gs →
    jGetD (Json.obj gs) "other" (Json.obj []) = Json.obj go →
    jGetD (Json.obj go) "official-artwork" (Json.obj []) = Json.obj ga →
    (get_pokemon_details up input = some (Json.obj
      [("id", jGetD (Json.obj fs) "id" Json.null),
       ("name", jGetD (Json.obj fs) "name" Json.null),
       ("height", jGetD (Json.obj fs) "height" Json.null),
       ("weight", jGetD (Json.obj fs) "weight" Json.null),
       ("types", Json.arr tys), ("stats", Json.obj sts),
       ("sprite_url",
         if truthy (jGetD (Json.obj ga) "front_default" Json.null) = true
         then jGetD (Json.obj ga) "front_default" Json.null
         else jGetD (Json.obj gs) "front_default" Json.null)])) ∧
    (jGetD (Json.obj ga) "front_default" Json.null = Json.null →
      get_pokemon_details up input = some (Json.obj
        [("id", jGetD (Json.obj fs) "id" Json.null),
         ("name", jGetD (Json.obj fs) "name" Json.null),
         ("height", jGetD (Json.obj fs) "height" Json.null),
         ("weight", jGetD (Json.obj fs) "weight" Json.null),
         ("types", Json.arr tys), ("stats", Json.obj sts),
         ("sprite_url", jGetD (Json.obj gs) "front_default" Json.null)])) ∧
    (jGetD (Json.obj ga) "front_default" Json.null = Json.null →
     jGetD (Json.obj gs) "front_default" Json.null = Json.null →
      get_pokemon_details up input = some (Json.obj
        [("id", jGetD (Json.obj fs) "id" Json.null),
         ("name", jGetD (Json.obj fs) "name" Json.null),
         ("height", jGetD (Json.obj fs) "height" Json.null),
         ("weight", jGetD (Json.obj fs) "weight" Json.null),
         ("types", Json.arr tys), ("stats", Json.obj sts),
         ("sprite_url", Json.null)])) := by
  intro hup hst herr htys hsts hgs hgo hga
  have hmain := get_pokemon_details_eq up input st b hup hst herr htys hsts
    hgs hgo hga
  refine ⟨hmain, fun hnull => ?_, fun hnull hnull2 => ?_⟩
  · rw [hmain, hnull]
    rfl
  · rw [hmain, hnull, hnull2]
    rfl

/-- Upstream for the C8 witness: official artwork null,
`sprites.front_default` set. -/
def upC8 : Upstream := fun u =>
  if u = POKEAPI_BASE_URL ++ "/pokemon/pikachu/" then
    .response 200 "" (.obj
      [("id", .num 25), ("name", .str "pikachu"),
       ("sprites", .obj
         [("front_default", .str "http://x/y.png"),
          ("other", .obj [("official-artwork", .obj
            [("front_default", Json.null)])])])])
  else .transportError "unreachable"

/-- Witness for C8 at the claim's own example: official-artwork
`front_default` null and `sprites.front_default = "http://x/y.png"` yields
`sprite_url = "http://x/y.png"`. -/
theorem c8_sprite_fallback_witness :
    get_pokemon_details upC8 "pikachu" = some (Json.obj
      [("id", .num 25), ("name", .str "pikachu"),
       ("height", Json.null), ("weight", Json.null),
       ("types", Json.arr []), ("stats", Json.obj []),
       ("sprite_url", .str "http://x/y.png")]) :=
  (c8_sprite_fallback upC8 "pikachu" 200 ""
    [("id", .num 25), ("name", .str "pikachu"),
     ("sprites", .obj
       [("front_default", .str "http://x/y.png"),
        ("other", .obj [("official-artwork", .obj
          [("front_default", Json.null)])])])]
    [("front_default", .str "http://x/y.png"),
     ("other", .obj [("official-artwork", .obj
       [("front_default", Json.null)])])]
    [("official-artwork", .obj [("front_default", Json.null)])]
    [("front_default", Json.null)]
    [] []
    rfl (by decide) rfl rfl rfl rfl rfl rfl).2.1 rfl

/-- C10 (implicit in the truthiness test `if not sprite_url`): the
fallback is taken whenever the official-artwork `front_default` is any
falsy value — null, `""`, `false` or `0` — not only when it is null or
absent. -/
theorem c10_sprite_falsy_fallback (up : Upstream) (input : String)
    (st : Nat) (b : String) (fs gs go ga : List (String × Json))
    (tys : List Json) (sts : List (String × Json)) :
    up (POKEAPI_BASE_URL ++ ("/pokemon/" ++ pyLower input ++ "/")) =
      .response st b (.obj fs) →
    ¬(400 ≤ st ∧ st < 600) →
    truthy (jGetD (Json.obj fs) "error" Json.null) = false →
    detailsTypes (Json.obj fs) = Except.ok tys →
    detailsStats (Json.obj fs) = Except.ok sts →
    jGetD (Json.obj fs) "sprites" (Json.obj []) = Json.obj gs →
    jGetD (Json.obj gs) "other" (Json.obj []) = Json.obj go →
    jGetD (Json.obj go) "official-artwork" (Json.obj []) = Json.obj ga →
    truthy (jGetD (Json.obj ga) "front_default" Json.null) = false →
    get_pokemon_details up input = some (Json.obj
      [("id", jGetD (Json.obj fs) "id" Json.null),
       ("name", jGetD (Json.obj fs) "name" Json.null),
       ("height", jGetD (Json.obj fs) "height" Json.null),
       ("weight", jGetD (Json.obj fs) "weight" Json.null),
       ("types", Json.arr tys), ("stats", Json.obj sts),
       ("sprite_url", jGetD (Json.obj gs) "front_default" Json.null)]) := by
  intro hup hst herr htys hsts hgs hgo hga hfalsy
  have hmain := get_pokemon_details_eq up input st b hup hst herr htys hsts
    hgs hgo hga
  rw [hmain, if_neg (by simp [hfalsy])]

/-- Upstream for the C10 witness: official artwork is the empty string (a
falsy, non-null value). -/
def upC10 : Upstream := fun u =>
  if u = POKEAPI_BASE_URL ++ "/pokemon/pikachu/" then
    .response 200 "" (.obj
      [("id", .num 25), ("name", .str "pikachu"),
       ("sprites", .obj
         [("front_default", .str "http://x/y.png"),
          ("other", .obj [("official-artwork", .obj
            [("front_default", .str "")])])])])
  else .transportError "unreachable"

/-- Witness for C10 at a concrete input: an empty-string official-artwork
URL is replaced by `sprites.front_default`. -/
theorem c10_sprite_falsy_fallback_witness :
    get_pokemon_details upC10 "pikachu" = some (Json.obj
      [("id", .num 25), ("name", .str "pikachu"),
       ("height", Json.null), ("weight", Json.null),
       ("types", Json.arr []), ("stats", Json.obj []),
       ("sprite_url", .str "http://x/y.png")]) :=
  c10_sprite_falsy_fallback upC10 "pikachu" 200 ""
    [("id", .num 25), ("name", .str "pikachu"),
     ("sprites", .obj
       [("front_default", .str "http://x/y.png"),
        ("other", .obj [("official-artwork", .obj
          [("front_default", .str "")])])])]
    [("front_default", .str "http://x/y.png"),
     ("other", .obj [("official-artwork", .obj
       [("front_default", .str "")])])]
    [("official-artwork", .obj [("front_default", .str "")])]
    [("front_default", .str "")]
    [] []
    rfl (by decide) rfl rfl rfl rfl rfl rfl rfl

/-! ### Claim C6 -/

/-- Modelled from the spec: the upstream listing endpoint's pagination
semantics, which are not part of `server.py` (spec sections 3 and 6: the
listing resource reports `count`, the total number of resources, and
returns at most `limit` results starting at `offset`).  The behaviour is
instantiated at the handler's default query `limit=2000&offset=0`: the
page is `names.drop 0 |>.take 2000` of the full upstream name list. -/
def pokemonListingUpstream (total : Int) (names : List String) : Upstream :=
  fun u =>
    if u = POKEAPI_BASE_URL ++ "/pokemon?limit=2000&offset=0" then
      .response 200 "" (Json.obj
        [("count", .num total),
         ("results", .arr (((names.drop 0).take 2000).map fun n =>
            Json.obj [("name", .str n)]))])
    else .transportError "not modelled"

theorem mapM_pySub_name (l : List String) :
    (l.map fun n => Json.obj [("name", Json.str n)]).mapM
      (fun p => pySub p "name") = Except.ok (l.map Json.str) := by
  induction l with
  | nil => rfl
  | cons n rest ih =>
    rw [List.map_cons, List.mapM_cons]
    rw [show pySub (Json.obj [("name", Json.str n)]) "name" =
      Except.ok (Json.str n) from rfl]
    rw [ok_bind, ih, ok_bind]
    rfl

/-- C6: the listing handlers embed `limit` and `offset` verbatim in the
query they fetch, with defaults 2000/0 (creatures) and 100/0 (items); and
against the spec-modelled paginating upstream, the default invocation
returns the first at-most-2000 names together with `count` equal to the
upstream-reported total, whether or not 2000 is at least that total. -/
theorem c6_listing_pass_through :
    (∀ (up : Upstream) (limit offset : Int),
      list_all_pokemon_names up limit offset =
        runHandler "Failed to process Pokémon list" (listBody "pokemon_names")
          (fetch_from_pokeapi up
            ("/pokemon?limit=" ++ toString limit ++ "&offset=" ++
              toString offset))) ∧
    (∀ (up : Upstream) (limit offset : Int),
      list_all_items up limit offset =
        runHandler "Failed to process item list" (listBody "item_names")
          (fetch_from_pokeapi up
            ("/item?limit=" ++ toString limit ++ "&offset=" ++
              toString offset))) ∧
    (∀ up : Upstream,
      list_all_pokemon_names up = list_all_pokemon_names up 2000 0) ∧
    (∀ up : Upstream, list_all_items up = list_all_items up 100 0) ∧
    (∀ (total : Int) (names : List String),
      list_all_pokemon_names (pokemonListingUpstream total names) =
        some (Json.obj [("count", .num total),
          ("pokemon_names",
           .arr (((names.drop 0).take 2000).map Json.str))]) ∧
      (((names.drop 0).take 2000).map Json.str).length ≤ 2000) := by
  refine ⟨fun up limit offset => rfl, fun up limit offset => rfl,
          fun up => rfl, fun up => rfl, fun total names => ⟨?_, ?_⟩⟩
  · have hf : fetch_from_pokeapi (pokemonListingUpstream total names)
        ("/pokemon?limit=" ++ toString (2000 : Int) ++ "&offset=" ++
          toString (0 : Int)) = Json.obj
        [("count", .num total),
         ("results", .arr (((names.drop 0).take 2000).map fun n =>
            Json.obj [("name", .str n)]))] := rfl
    have hb : listBody "pokemon_names" (Json.obj
        [("count", .num total),
         ("results", .arr (((names.drop 0).take 2000).map fun n =>
            Json.obj [("name", .str n)]))]) = Except.ok
        (Json.obj [("count", .num total),
          ("pokemon_names",
           .arr (((names.drop 0).take 2000).map Json.str))]) := by
      unfold listBody
      rw [show pyGetD (Json.obj
          [("count", Json.num total),
           ("results", .arr (((names.drop 0).take 2000).map fun n =>
              Json.obj [("name", .str n)]))]) "results" (Json.arr []) =
        Except.ok (.arr (((names.drop 0).take 2000).map fun n =>
          Json.obj [("name", .str n)])) from rfl]
      rw [ok_bind]
      rw [show pyIter (Json.arr (((names.drop 0).take 2000).map fun n =>
          Json.obj [("name", .str n)])) = Except.ok
          (((names.drop 0).take 2000).map fun n =>
            Json.obj [("name", .str n)]) from rfl]
      rw [ok_bind, mapM_pySub_name, ok_bind]
      rfl
    show runHandler "Failed to process Pokémon list" (listBody "pokemon_names")
        (fetch_from_pokeapi (pokemonListingUpstream total names)
          ("/pokemon?limit=" ++ toString (2000 : Int) ++ "&offset=" ++
            toString (0 : Int))) = _
    rw [hf]
    exact runHandler_ok (by rfl) hb
  · rw [List.length_map, List.length_take]
    omega
